import Mathlib

/-!
Shallow embedding of the KickLang tutoring client (deniskropp/t221).

The data model follows `src/types.ts`; the two model-facing adapters follow
`src/services/geminiService.ts`; the UI event handlers follow `src/App.tsx`.
The external generative-model invocation is nondeterministic, so each adapter
takes an explicit outcome parameter describing what the model call did
(threw, returned empty text, returned unparseable text, or returned a parsed
value); everything after that point is translated from the source verbatim.
-/

/-- Learning styles, from the `LearningStyle` enum in `src/types.ts`. -/
inductive LearningStyle where
  | Socratic
  | Direct
  | Hybrid
deriving DecidableEq, Repr

/-- Node status, from the `status` union type of `GraphNode` in `src/types.ts`. -/
inductive NodeStatus where
  | pending
  | active
  | completed
deriving DecidableEq, Repr

/-- Graph node, from `GraphNode` in `src/types.ts` (`group` is optional there). -/
structure GraphNode where
  id : String
  label : String
  status : NodeStatus
  group : Option Nat := none
deriving DecidableEq, Repr

/-- Directed edge, from `GraphLink` in `src/types.ts`. -/
structure GraphLink where
  source : String
  target : String
deriving DecidableEq, Repr

/-- Learning graph, from `LearningGraphData` in `src/types.ts`. -/
structure LearningGraphData where
  nodes : List GraphNode
  links : List GraphLink
deriving DecidableEq, Repr

/-- Message role, from the `role` union type of `Message` in `src/types.ts`. -/
inductive Role where
  | user
  | model
  | system
deriving DecidableEq, Repr

/-- Chat message, from `Message` in `src/types.ts` (`authorName` is optional). -/
structure Message where
  id : String
  role : Role
  authorName : Option String := none
  text : String
  timestamp : Nat
deriving DecidableEq, Repr

/-- Session state, from `KickLangState` in `src/types.ts`. -/
structure KickLangState where
  objective : String
  learningStyle : LearningStyle
  currentNodeId : String
  difficulty : String
deriving DecidableEq, Repr

/-- Initial empty graph constant, from `INITIAL_GRAPH` in `src/types.ts`. -/
def INITIAL_GRAPH : LearningGraphData :=
  { nodes := [], links := [] }

/-- Boolean substring containment: the embedding of JavaScript
`String.prototype.includes` used by the author-tag heuristic. -/
def jsIncludes (s pat : String) : Bool :=
  decide (pat.data <:+: s.data)

/-- Embedding of the JavaScript idiom `x || dflt` on strings: the empty
string is falsy, so it is replaced by the default. -/
def jsOrElse (s dflt : String) : String :=
  if s = "" then dflt else s

/-- Outcome of the model invocation plus JSON parse inside
`generateLearningGraph` (`src/services/geminiService.ts`): the call can throw,
return a response whose `text` is empty or missing, return text on which
`JSON.parse` throws, or return text that parses to a graph value. -/
inductive GenOutcome where
  | throwErr
  | emptyText
  | parseFail (text : String)
  | parsed (g : LearningGraphData)
deriving Repr

/-- The fixed fallback graph from the catch branch of `generateLearningGraph`
(`src/services/geminiService.ts` lines 77-80). -/
def fallbackGraph : LearningGraphData :=
  { nodes := [{ id := "start", label := "Start", status := NodeStatus.active }]
    links := [] }

/-- Embedding of `generateLearningGraph` (`src/services/geminiService.ts`
lines 13-82): the try block returns `JSON.parse(response.text)` verbatim when
the response has nonempty text and the parse succeeds; a missing or empty
`response.text` throws `"No data returned"`, and every exception (model call,
empty text, parse) is caught and mapped to the fixed fallback graph. The
`objective` only feeds the prompt, never the result shape. -/
def generateLearningGraph (objective : String) (m : GenOutcome) : LearningGraphData :=
  match m with
  | GenOutcome.throwErr => fallbackGraph
  | GenOutcome.emptyText => fallbackGraph
  | GenOutcome.parseFail _ => fallbackGraph
  | GenOutcome.parsed g => g

/-- One entry of the chat history ref (`src/App.tsx` line 39): a role string
and the text parts of the turn. -/
structure HistoryEntry where
  role : String
  parts : List String
deriving DecidableEq, Repr

/-- Context argument of `sendKickLangMessage`
(`src/services/geminiService.ts` line 90). -/
structure ChatContext where
  objective : String
  style : LearningStyle
  currentNode : String
  graph : LearningGraphData
deriving Repr

/-- Outcome of the chat model invocation inside `sendKickLangMessage`: the
call can throw, resolve to a reply with the given text, or resolve to a
reply whose `text` accessor is undefined (`result.text` has type
`string | undefined` in the SDK and is returned unguarded at
`src/services/geminiService.ts` line 159). -/
inductive ChatOutcome where
  | throwErr
  | ok (text : String)
  | okUndefined
deriving Repr

/-- The fixed error string returned by the catch branch of
`sendKickLangMessage` (`src/services/geminiService.ts` line 162). -/
def chatErrorMessage : String :=
  "**SystemMonitor:** Neural core interrupt. Re-synchronizing swarm..."

/-- Embedding of `sendKickLangMessage` (`src/services/geminiService.ts`
lines 87-164): `result.text` (`string | undefined`) is returned unguarded
on success, so the result is `none` when the resolved reply carries no
text, and any exception is caught and mapped to the fixed, defined
`chatErrorMessage` constant. The history, message and context only feed
the request, never the caught branch. -/
def sendKickLangMessage (history : List HistoryEntry) (message : String)
    (context : ChatContext) (m : ChatOutcome) : Option String :=
  match m with
  | ChatOutcome.ok t => some t
  | ChatOutcome.okUndefined => none
  | ChatOutcome.throwErr => some chatErrorMessage

/-- The author-tag heuristic of `handleSendMessage` (`src/App.tsx` lines
109-113): ordered first-match-wins containment check over bold-prefixed
persona markers, defaulting to `"AI_Tutor"`. -/
def classifyAuthor (responseText : String) : String :=
  if jsIncludes responseText "**ScopeGuard" then "ScopeGuard"
  else if jsIncludes responseText "**DebuggAI" then "DebuggAI"
  else if jsIncludes responseText "**Dima" then "Dima"
  else "AI_Tutor"

/-- The mutable state of the `App` component (`src/App.tsx` lines 23-39):
UI flags, the `kickLangState` record, the graph, the message log and the
chat history ref. -/
structure AppState where
  hasStarted : Bool
  isTyping : Bool
  kickLangState : KickLangState
  graphData : LearningGraphData
  messages : List Message
  chatHistory : List HistoryEntry
deriving Repr

/-- The initial component state (`src/App.tsx` lines 23-39). -/
def initialAppState : AppState :=
  { hasStarted := false
    isTyping := false
    kickLangState :=
      { objective := ""
        learningStyle := LearningStyle.Socratic
        currentNodeId := "start"
        difficulty := "intermediate" }
    graphData := INITIAL_GRAPH
    messages := []
    chatHistory := [] }

/-- The display label of the first node used in the welcome message
(`src/App.tsx` line 63): `graph.nodes[0]?.label || 'Start'`. -/
def startLabelOf (g : LearningGraphData) : String :=
  match g.nodes with
  | [] => "Start"
  | n :: _ => jsOrElse n.label "Start"

/-- The synthesized welcome text of `handleStartSession`
(`src/App.tsx` line 63). -/
def welcomeText (obj startLabel : String) : String :=
  "Welcome! I\x27ve loaded the knowledge graph for **" ++ obj ++
    "**. We are starting at **" ++ startLabel ++
    "**. \n\nShould we dive right in with an example (Direct) or explore the concept together (Socratic)?"

/-- Embedding of `handleStartSession` (`src/App.tsx` lines 42-80): store the
generated graph, point `currentNodeId` at the first node (or `"start"` when
the node list is empty), replace the message log with the single welcome
message, seed the chat history with it, and mark the session started. -/
def handleStartSession (s : AppState) (obj : String) (m : GenOutcome) (now : Nat) : AppState :=
  let graph := generateLearningGraph obj m
  let startNode := match graph.nodes with | [] => "start" | n :: _ => n.id
  let initialMessage : Message :=
    { id := "init-1"
      role := Role.model
      authorName := some "AI_Tutor"
      text := welcomeText obj (startLabelOf graph)
      timestamp := now }
  { s with
    graphData := graph
    kickLangState := { s.kickLangState with objective := obj, currentNodeId := startNode }
    messages := [initialMessage]
    chatHistory := [{ role := "model", parts := [initialMessage.text] }]
    hasStarted := true }

/-- The optimistic user message of `handleSendMessage`
(`src/App.tsx` lines 84-89). -/
def mkUserMessage (text : String) (now : Nat) : Message :=
  { id := toString now
    role := Role.user
    text := text
    timestamp := now }

/-- The current node label passed as chat context (`src/App.tsx` line 104):
`graphData.nodes.find(n => n.id === currentNodeId)?.label || 'Unknown'`. -/
def currentNodeLabel (s : AppState) : String :=
  match s.graphData.nodes.find? (fun n => n.id == s.kickLangState.currentNodeId) with
  | some n => jsOrElse n.label "Unknown"
  | none => "Unknown"

/-- The context object built by `handleSendMessage`
(`src/App.tsx` lines 101-106). -/
def contextOf (s : AppState) : ChatContext :=
  { objective := s.kickLangState.objective
    style := s.kickLangState.learningStyle
    currentNode := currentNodeLabel s
    graph := s.graphData }

/-- First phase of `handleSendMessage` (`src/App.tsx` lines 82-95): append
the optimistic user message, raise the typing flag, push the user turn onto
the chat history. This is the state visible immediately upon submission. -/
def handleSendMessageSubmit (s : AppState) (text : String) (now : Nat) : AppState :=
  { s with
    messages := s.messages ++ [mkUserMessage text now]
    isTyping := true
    chatHistory := s.chatHistory ++ [{ role := "user", parts := [text] }] }

/-- The model message appended by `handleSendMessage`
(`src/App.tsx` lines 115-121), tagged by the author heuristic. -/
def mkBotMessage (responseText : String) (now2 : Nat) : Message :=
  { id := toString (now2 + 1)
    role := Role.model
    authorName := some (classifyAuthor responseText)
    text := responseText
    timestamp := now2 }

/-- Second phase of `handleSendMessage` (`src/App.tsx` lines 97-130): await
the adapter, append the tagged model message, push the model turn onto the
chat history, clear the typing flag. When the adapter resolves with an
undefined reply text, `responseText.includes` (`src/App.tsx` line 111)
raises a TypeError that the catch at lines 126-130 only logs, so no model
message and no history entry is appended; the finally block still clears
the typing flag. -/
def handleSendMessageFinish (s1 : AppState) (text : String) (now2 : Nat)
    (m : ChatOutcome) : AppState :=
  match sendKickLangMessage s1.chatHistory text (contextOf s1) m with
  | some responseText =>
    { s1 with
      messages := s1.messages ++ [mkBotMessage responseText now2]
      chatHistory := s1.chatHistory ++ [{ role := "model", parts := [responseText] }]
      isTyping := false }
  | none =>
    { s1 with isTyping := false }

/-- Full embedding of `handleSendMessage` (`src/App.tsx` lines 82-131):
submission phase followed by completion phase. -/
def handleSendMessage (s : AppState) (text : String) (now now2 : Nat)
    (m : ChatOutcome) : AppState :=
  handleSendMessageFinish (handleSendMessageSubmit s text now) text now2 m

/-- Embedding of `handleNodeClick` (`src/App.tsx` lines 133-138): set
`currentNodeId` unconditionally; nothing else changes. -/
def handleNodeClick (s : AppState) (nodeId : String) : AppState :=
  { s with kickLangState := { s.kickLangState with currentNodeId := nodeId } }

/-- Embedding of `toggleStyle` (`src/App.tsx` lines 140-145): Socratic maps
to Direct, anything else maps to Socratic. -/
def toggleStyle (s : AppState) : AppState :=
  { s with
    kickLangState :=
      { s.kickLangState with
        learningStyle :=
          if s.kickLangState.learningStyle = LearningStyle.Socratic
          then LearningStyle.Direct else LearningStyle.Socratic } }

/-- One UI event, covering the four handlers of `src/App.tsx`. -/
inductive UIAction where
  | start (obj : String) (m : GenOutcome) (now : Nat)
  | send (text : String) (now now2 : Nat) (m : ChatOutcome)
  | select (nodeId : String)
  | toggle

/-- Dispatch one UI event to its handler. -/
def step (s : AppState) : UIAction → AppState
  | UIAction.start obj m now => handleStartSession s obj m now
  | UIAction.send text now now2 m => handleSendMessage s text now now2 m
  | UIAction.select nodeId => handleNodeClick s nodeId
  | UIAction.toggle => toggleStyle s

/-- Run a sequence of UI events from a state. -/
def run (acts : List UIAction) (s : AppState) : AppState :=
  acts.foldl step s

/-- Helper: substring containment is transitive along a fixed sub-pattern:
if the data of `pat2` is an infix of the data of `pat1` and `s` includes
`pat1`, then `s` includes `pat2`. -/
theorem jsIncludes_of_infix {s pat1 pat2 : String}
    (hsub : pat2.data <:+: pat1.data) (h : jsIncludes s pat1 = true) :
    jsIncludes s pat2 = true := by
  have h1 : pat1.data <:+: s.data := of_decide_eq_true h
  exact decide_eq_true (hsub.trans h1)

/-- Helper: a string includes any literal substring placed between two
other pieces by concatenation. -/
theorem jsIncludes_append (a pat b : String) :
    jsIncludes (a ++ pat ++ b) pat = true := by
  refine decide_eq_true ?_
  refine ⟨a.data, b.data, ?_⟩
  simp [String.data_append]

/-- C2: on a thrown model exception, an empty model response, or a JSON
parse failure, `generateLearningGraph` returns the fixed fallback graph of
exactly one node `{id:"start", label:"Start", status:"active"}` and no
links; being a total function into `LearningGraphData`, it propagates no
exception or typed error to the caller. -/
theorem generateLearningGraph_failure_fallback (obj t : String) :
    generateLearningGraph obj GenOutcome.throwErr = fallbackGraph
    ∧ generateLearningGraph obj GenOutcome.emptyText = fallbackGraph
    ∧ generateLearningGraph obj (GenOutcome.parseFail t) = fallbackGraph
    ∧ fallbackGraph =
        { nodes := [{ id := "start", label := "Start", status := NodeStatus.active }]
          links := [] } :=
  ⟨rfl, rfl, rfl, rfl⟩

/-- C3: when the chat model invocation throws, `sendKickLangMessage` returns
the one fixed, defined apology string, independent of the history, the new
message and the context; being a total function, it never throws, so the
caller cannot distinguish a network failure from a legitimate reply by the
result type. -/
theorem sendKickLangMessage_failure_constant
    (history : List HistoryEntry) (message : String) (context : ChatContext)
    (history2 : List HistoryEntry) (message2 : String) (context2 : ChatContext) :
    sendKickLangMessage history message context ChatOutcome.throwErr = some chatErrorMessage
    ∧ sendKickLangMessage history message context ChatOutcome.throwErr
        = sendKickLangMessage history2 message2 context2 ChatOutcome.throwErr :=
  ⟨rfl, rfl⟩

/-- C8: `handleNodeClick` sets `currentNodeId` to the given id
unconditionally, for every state and every id, with no check that a node
with that id exists in the current graph. -/
theorem handleNodeClick_sets_currentNodeId (s : AppState) (nodeId : String) :
    (handleNodeClick s nodeId).kickLangState.currentNodeId = nodeId :=
  rfl

/-- C7: `toggleStyle` maps Socratic to Direct and everything else to
Socratic, so after at least one call the learning style is always Socratic
or Direct and never Hybrid, from any starting state. -/
theorem toggleStyle_never_hybrid (s : AppState) (n : Nat) :
    (toggleStyle s).kickLangState.learningStyle
      = (if s.kickLangState.learningStyle = LearningStyle.Socratic
         then LearningStyle.Direct else LearningStyle.Socratic)
    ∧ ((toggleStyle^[n + 1] s).kickLangState.learningStyle = LearningStyle.Socratic
        ∨ (toggleStyle^[n + 1] s).kickLangState.learningStyle = LearningStyle.Direct)
    ∧ (toggleStyle^[n + 1] s).kickLangState.learningStyle ≠ LearningStyle.Hybrid := by
  refine ⟨rfl, ?_, ?_⟩ <;>
    rw [Function.iterate_succ_apply'] <;>
    rcases h : (toggleStyle^[n] s).kickLangState.learningStyle <;>
    simp [toggleStyle, h]

/-- C4: the author-tag classification is a total function returning exactly
one of the fixed persona names, by ordered first-match-wins containment
over the bold-prefixed markers; any input containing
`"**ScopeGuard:** focus"` is classified `"ScopeGuard"`, and any input
containing none of the markers defaults to `"AI_Tutor"`. -/
theorem classifyAuthor_spec (s : String) :
    (classifyAuthor s = "ScopeGuard" ∨ classifyAuthor s = "DebuggAI"
      ∨ classifyAuthor s = "Dima" ∨ classifyAuthor s = "AI_Tutor")
    ∧ (jsIncludes s "**ScopeGuard:** focus" = true → classifyAuthor s = "ScopeGuard")
    ∧ (jsIncludes s "**ScopeGuard" = false → jsIncludes s "**DebuggAI" = false →
        jsIncludes s "**Dima" = false → classifyAuthor s = "AI_Tutor") := by
  refine ⟨?_, ?_, ?_⟩
  · unfold classifyAuthor
    rcases jsIncludes s "**ScopeGuard" <;> rcases jsIncludes s "**DebuggAI" <;>
      rcases jsIncludes s "**Dima" <;> simp
  · intro h
    have h1 : jsIncludes s "**ScopeGuard" = true :=
      jsIncludes_of_infix (by decide) h
    simp [classifyAuthor, h1]
  · intro h1 h2 h3
    simp [classifyAuthor, h1, h2, h3]

/-- Witness for C4: concrete inputs discharging both hypotheses of
`classifyAuthor_spec`. -/
theorem classifyAuthor_spec_witness :
    (jsIncludes "ok **ScopeGuard:** focus here" "**ScopeGuard:** focus" = true
      ∧ classifyAuthor "ok **ScopeGuard:** focus here" = "ScopeGuard")
    ∧ (jsIncludes "a plain reply" "**ScopeGuard" = false
      ∧ jsIncludes "a plain reply" "**DebuggAI" = false
      ∧ jsIncludes "a plain reply" "**Dima" = false
      ∧ classifyAuthor "a plain reply" = "AI_Tutor") :=
  ⟨⟨by decide, (classifyAuthor_spec "ok **ScopeGuard:** focus here").2.1 (by decide)⟩,
   ⟨by decide, by decide, by decide,
    (classifyAuthor_spec "a plain reply").2.2 (by decide) (by decide) (by decide)⟩⟩

/-- C5 counterexample: on a completed call whose resolved reply carries
undefined text (the unguarded `result.text` of the adapter), the author
heuristic throws, the catch appends nothing, and the message log of the
completed call has grown by exactly 1, not 2, so the claimed `+2 per
completed call` fails on the code. -/
theorem handleSendMessage_claim_counterexample :
    (handleSendMessage initialAppState "hi" 1 2 ChatOutcome.okUndefined).messages
      = [mkUserMessage "hi" 1]
    ∧ (handleSendMessage initialAppState "hi" 1 2 ChatOutcome.okUndefined).messages.length
      = initialAppState.messages.length + 1
    ∧ (handleSendMessage initialAppState "hi" 1 2 ChatOutcome.okUndefined).messages.length
      ≠ initialAppState.messages.length + 2 :=
  ⟨rfl, rfl, by decide⟩

/-- C5 (amended): `handleSendMessage` is append-only on the message log:
submission appends exactly the optimistic user message (length + 1), even
before the model call resolves; a completed call has appended exactly one
further model message (length + 2 in total) whenever the adapter yields a
defined reply string - including its exception path, which yields the
fixed error string - but nothing beyond the user message (length + 1 in
total) when the resolved reply text is undefined, because the author
heuristic then throws and the catch appends nothing. In every case the
previously appended messages stay as an unchanged initial segment, in
order. -/
theorem handleSendMessage_append_only_amended (s : AppState) (text : String)
    (now now2 : Nat) (m : ChatOutcome) :
    (handleSendMessageSubmit s text now).messages = s.messages ++ [mkUserMessage text now]
    ∧ (handleSendMessageSubmit s text now).messages.length = s.messages.length + 1
    ∧ (∀ t, m = ChatOutcome.ok t →
        (handleSendMessage s text now now2 m).messages
          = s.messages ++ [mkUserMessage text now, mkBotMessage t now2])
    ∧ (m = ChatOutcome.throwErr →
        (handleSendMessage s text now now2 m).messages
          = s.messages ++ [mkUserMessage text now, mkBotMessage chatErrorMessage now2])
    ∧ (m = ChatOutcome.okUndefined →
        (handleSendMessage s text now now2 m).messages
          = s.messages ++ [mkUserMessage text now])
    ∧ (∃ tail, (handleSendMessage s text now now2 m).messages
        = s.messages ++ mkUserMessage text now :: tail) := by
  refine ⟨rfl, by simp [handleSendMessageSubmit], ?_, ?_, ?_, ?_⟩
  · rintro t rfl
    simp [handleSendMessage, handleSendMessageFinish, handleSendMessageSubmit,
      sendKickLangMessage]
  · rintro rfl
    simp [handleSendMessage, handleSendMessageFinish, handleSendMessageSubmit,
      sendKickLangMessage]
  · rintro rfl
    simp [handleSendMessage, handleSendMessageFinish, handleSendMessageSubmit,
      sendKickLangMessage]
  · cases m with
    | ok t =>
      exact ⟨[mkBotMessage t now2],
        by simp [handleSendMessage, handleSendMessageFinish, handleSendMessageSubmit,
          sendKickLangMessage]⟩
    | throwErr =>
      exact ⟨[mkBotMessage chatErrorMessage now2],
        by simp [handleSendMessage, handleSendMessageFinish, handleSendMessageSubmit,
          sendKickLangMessage]⟩
    | okUndefined =>
      exact ⟨[],
        by simp [handleSendMessage, handleSendMessageFinish, handleSendMessageSubmit,
          sendKickLangMessage]⟩

/-- Witness for the amended C5: each guarded growth law discharged at a
concrete state and outcome. -/
theorem handleSendMessage_append_only_amended_witness :
    (handleSendMessage initialAppState "hi" 1 2 (ChatOutcome.ok "fine")).messages
      = initialAppState.messages ++ [mkUserMessage "hi" 1, mkBotMessage "fine" 2]
    ∧ (handleSendMessage initialAppState "hi" 1 2 ChatOutcome.throwErr).messages
      = initialAppState.messages ++ [mkUserMessage "hi" 1, mkBotMessage chatErrorMessage 2]
    ∧ (handleSendMessage initialAppState "hi" 1 2 ChatOutcome.okUndefined).messages
      = initialAppState.messages ++ [mkUserMessage "hi" 1] :=
  ⟨(handleSendMessage_append_only_amended initialAppState "hi" 1 2
      (ChatOutcome.ok "fine")).2.2.1 "fine" rfl,
   (handleSendMessage_append_only_amended initialAppState "hi" 1 2
      ChatOutcome.throwErr).2.2.2.1 rfl,
   (handleSendMessage_append_only_amended initialAppState "hi" 1 2
      ChatOutcome.okUndefined).2.2.2.2.1 rfl⟩

/-- C10: the fixed chat-failure string contains none of the three persona
markers checked by the author-tag heuristic, so it classifies as
`"AI_Tutor"`, and on the chat-failure path `handleSendMessage` appends a
model message carrying `authorName = "AI_Tutor"` with that error text. -/
theorem chatErrorMessage_author_default (s : AppState) (text : String) (now now2 : Nat) :
    jsIncludes chatErrorMessage "**ScopeGuard" = false
    ∧ jsIncludes chatErrorMessage "**DebuggAI" = false
    ∧ jsIncludes chatErrorMessage "**Dima" = false
    ∧ classifyAuthor chatErrorMessage = "AI_Tutor"
    ∧ (∃ b : Message,
        (handleSendMessage s text now now2 ChatOutcome.throwErr).messages
          = s.messages ++ [mkUserMessage text now, b]
        ∧ b.authorName = some "AI_Tutor" ∧ b.text = chatErrorMessage) := by
  refine ⟨by decide, by decide, by decide, by decide,
    mkBotMessage chatErrorMessage now2, ?_, ?_, rfl⟩
  · simp [handleSendMessage, handleSendMessageFinish, handleSendMessageSubmit,
      sendKickLangMessage]
  · show some (classifyAuthor chatErrorMessage) = some "AI_Tutor"
    norm_num [show classifyAuthor chatErrorMessage = "AI_Tutor" by decide]

/-- The first mock node of the end-to-end scenario in the spec. -/
def mockNodeStart : GraphNode :=
  { id := "start", label := "Start", status := NodeStatus.active }

/-- The second mock node of the end-to-end scenario in the spec. -/
def mockNode2 : GraphNode :=
  { id := "n2", label := "Base Case", status := NodeStatus.pending }

/-- The mock graph returned by the model in the end-to-end scenario. -/
def mockGraph : LearningGraphData :=
  { nodes := [mockNodeStart, mockNode2]
    links := [{ source := "start", target := "n2" }] }

/-- The model outcome delivering the mock graph. -/
def mockGenOutcome : GenOutcome :=
  GenOutcome.parsed mockGraph

set_option maxRecDepth 8000 in
/-- C6: `handleStartSession` stores the generated graph, sets
`currentNodeId` to the first node's id (or `"start"` when the node list is
empty), and replaces the message log with exactly one synthesized welcome
message whose text contains the first node's label; on the spec's mock
graph, `currentNodeId` becomes `"start"` and the single welcome message
references the label `"Start"`. -/
theorem handleStartSession_spec (s : AppState) (obj : String) (m : GenOutcome) (now : Nat) :
    (handleStartSession s obj m now).graphData = generateLearningGraph obj m
    ∧ (handleStartSession s obj m now).kickLangState.currentNodeId
        = (match (generateLearningGraph obj m).nodes with | [] => "start" | n :: _ => n.id)
    ∧ (handleStartSession s obj m now).messages
        = [{ id := "init-1", role := Role.model, authorName := some "AI_Tutor",
             text := welcomeText obj (startLabelOf (generateLearningGraph obj m)),
             timestamp := now }]
    ∧ (∀ n ns, (generateLearningGraph obj m).nodes = n :: ns →
        jsIncludes (welcomeText obj (startLabelOf (generateLearningGraph obj m))) n.label
          = true)
    ∧ ((handleStartSession s "Learn recursion" mockGenOutcome now).kickLangState.currentNodeId
          = "start"
        ∧ (handleStartSession s "Learn recursion" mockGenOutcome now).messages.length = 1
        ∧ ∃ w : Message,
            (handleStartSession s "Learn recursion" mockGenOutcome now).messages = [w]
            ∧ jsIncludes w.text "Start" = true) := by
  refine ⟨rfl, rfl, rfl, ?_, rfl, rfl, ?_⟩
  · intro n ns h
    by_cases hl : n.label = ""
    · rw [hl]
      refine decide_eq_true
        ⟨[], (welcomeText obj (startLabelOf (generateLearningGraph obj m))).data, ?_⟩
      rfl
    · have key := jsIncludes_append
        ("Welcome! I\x27ve loaded the knowledge graph for **" ++ obj
          ++ "**. We are starting at **") n.label
        "**. \n\nShould we dive right in with an example (Direct) or explore the concept together (Socratic)?"
      simpa [welcomeText, startLabelOf, h, jsOrElse, hl] using key
  · refine ⟨_, rfl, ?_⟩
    show jsIncludes
      (welcomeText "Learn recursion"
        (startLabelOf (generateLearningGraph "Learn recursion" mockGenOutcome)))
      "Start" = true
    decide

/-- Witness for C6: the mock outcome has a nonempty node list and the
welcome text built from it contains the first node's label. -/
theorem handleStartSession_spec_witness :
    (generateLearningGraph "Learn recursion" mockGenOutcome).nodes
        = mockNodeStart :: [mockNode2]
    ∧ jsIncludes
        (welcomeText "Learn recursion"
          (startLabelOf (generateLearningGraph "Learn recursion" mockGenOutcome)))
        mockNodeStart.label = true :=
  ⟨rfl,
   (handleStartSession_spec initialAppState "Learn recursion" mockGenOutcome 0).2.2.2.1
     mockNodeStart [mockNode2] rfl⟩

/-- Helper: each UI event handler leaves the `difficulty` field unchanged. -/
theorem step_preserves_difficulty (s : AppState) (a : UIAction) :
    (step s a).kickLangState.difficulty = s.kickLangState.difficulty := by
  cases a with
  | start obj m now => rfl
  | send text now now2 m => cases m <;> rfl
  | select nodeId => rfl
  | toggle => rfl

/-- Helper: any event sequence leaves the `difficulty` field unchanged. -/
theorem run_preserves_difficulty (acts : List UIAction) (s : AppState) :
    (run acts s).kickLangState.difficulty = s.kickLangState.difficulty := by
  induction acts generalizing s with
  | nil => rfl
  | cons a l ih =>
    show (run l (step s a)).kickLangState.difficulty = s.kickLangState.difficulty
    rw [ih (step s a), step_preserves_difficulty]

/-- C9: `handleNodeClick` changes only `currentNodeId` and `toggleStyle`
changes only `learningStyle`; every other field of the session state (and of
the component state) keeps its prior value under these two operations, and
`difficulty` is never written by any of the four handlers, so after any
event sequence from the initial state it is still `"intermediate"`. -/
theorem session_state_frame (s : AppState) (nodeId : String) (acts : List UIAction) :
    (handleNodeClick s nodeId).kickLangState.objective = s.kickLangState.objective
    ∧ (handleNodeClick s nodeId).kickLangState.learningStyle = s.kickLangState.learningStyle
    ∧ (handleNodeClick s nodeId).kickLangState.difficulty = s.kickLangState.difficulty
    ∧ (handleNodeClick s nodeId).graphData = s.graphData
    ∧ (handleNodeClick s nodeId).messages = s.messages
    ∧ (handleNodeClick s nodeId).chatHistory = s.chatHistory
    ∧ (handleNodeClick s nodeId).hasStarted = s.hasStarted
    ∧ (handleNodeClick s nodeId).isTyping = s.isTyping
    ∧ (toggleStyle s).kickLangState.objective = s.kickLangState.objective
    ∧ (toggleStyle s).kickLangState.currentNodeId = s.kickLangState.currentNodeId
    ∧ (toggleStyle s).kickLangState.difficulty = s.kickLangState.difficulty
    ∧ (toggleStyle s).graphData = s.graphData
    ∧ (toggleStyle s).messages = s.messages
    ∧ (toggleStyle s).chatHistory = s.chatHistory
    ∧ (toggleStyle s).hasStarted = s.hasStarted
    ∧ (toggleStyle s).isTyping = s.isTyping
    ∧ (run acts initialAppState).kickLangState.difficulty = "intermediate" :=
  ⟨rfl, rfl, rfl, rfl, rfl, rfl, rfl, rfl,
   rfl, rfl, rfl, rfl, rfl, rfl, rfl, rfl,
   run_preserves_difficulty acts initialAppState⟩

/-- A parsed model output the schema admits but the claimed node-set
properties rule out: a single node whose id is not `"start"`. -/
def badGraphC1 : LearningGraphData :=
  { nodes := [{ id := "x", label := "X", status := NodeStatus.pending }]
    links := [] }

/-- C1 counterexample: when the model output parses to `badGraphC1`,
`generateLearningGraph` returns it verbatim, yet it neither contains a
`"start"` node with 6-10 nodes nor equals the fallback graph, so the
claimed disjunction fails on the code. -/
theorem generateLearningGraph_claim_counterexample :
    generateLearningGraph "Learn recursion" (GenOutcome.parsed badGraphC1) = badGraphC1
    ∧ ¬ ((∃ n ∈ (generateLearningGraph "Learn recursion" (GenOutcome.parsed badGraphC1)).nodes,
            n.id = "start")
          ∧ 6 ≤ (generateLearningGraph "Learn recursion" (GenOutcome.parsed badGraphC1)).nodes.length
          ∧ (generateLearningGraph "Learn recursion" (GenOutcome.parsed badGraphC1)).nodes.length ≤ 10)
    ∧ generateLearningGraph "Learn recursion" (GenOutcome.parsed badGraphC1) ≠ fallbackGraph :=
  ⟨rfl, by decide, by decide⟩

/-- C1 (amended): `generateLearningGraph` returns the parsed model output
verbatim on the success path, with no graph-validity check, and the exact
fallback graph on every failure path; hence the claimed disjunction (a
`"start"`-containing node set of 6-10 nodes, or the fallback) holds exactly
when the parsed model output itself satisfies those node-set properties. -/
theorem generateLearningGraph_amended (obj : String) (m : GenOutcome) :
    (generateLearningGraph obj m = fallbackGraph
      ∨ ∃ g, m = GenOutcome.parsed g ∧ generateLearningGraph obj m = g)
    ∧ (∀ g, m = GenOutcome.parsed g → generateLearningGraph obj m = g)
    ∧ (∀ g, m = GenOutcome.parsed g →
        ((∃ n ∈ g.nodes, n.id = "start") ∧ 6 ≤ g.nodes.length ∧ g.nodes.length ≤ 10) →
        (((∃ n ∈ (generateLearningGraph obj m).nodes, n.id = "start")
            ∧ 6 ≤ (generateLearningGraph obj m).nodes.length
            ∧ (generateLearningGraph obj m).nodes.length ≤ 10)
          ∨ generateLearningGraph obj m = fallbackGraph)) := by
  refine ⟨?_, ?_, ?_⟩
  · cases m with
    | throwErr => exact Or.inl rfl
    | emptyText => exact Or.inl rfl
    | parseFail t => exact Or.inl rfl
    | parsed g => exact Or.inr ⟨g, rfl, rfl⟩
  · rintro g rfl
    rfl
  · rintro g rfl hg
    exact Or.inl hg

/-- A conforming parsed output: six nodes, one of them `"start"`. -/
def sixGraphC1 : LearningGraphData :=
  { nodes :=
      [{ id := "start", label := "Start", status := NodeStatus.active },
       { id := "n2", label := "A", status := NodeStatus.pending },
       { id := "n3", label := "B", status := NodeStatus.pending },
       { id := "n4", label := "C", status := NodeStatus.pending },
       { id := "n5", label := "D", status := NodeStatus.pending },
       { id := "n6", label := "E", status := NodeStatus.pending }]
    links := [] }

/-- Witness for the amended C1: a conforming six-node parsed output
discharges both hypotheses. -/
theorem generateLearningGraph_amended_witness :
    ((∃ n ∈ sixGraphC1.nodes, n.id = "start")
      ∧ 6 ≤ sixGraphC1.nodes.length ∧ sixGraphC1.nodes.length ≤ 10)
    ∧ generateLearningGraph "Learn recursion" (GenOutcome.parsed sixGraphC1) = sixGraphC1
    ∧ (((∃ n ∈ (generateLearningGraph "Learn recursion" (GenOutcome.parsed sixGraphC1)).nodes,
            n.id = "start")
          ∧ 6 ≤ (generateLearningGraph "Learn recursion" (GenOutcome.parsed sixGraphC1)).nodes.length
          ∧ (generateLearningGraph "Learn recursion" (GenOutcome.parsed sixGraphC1)).nodes.length ≤ 10)
        ∨ generateLearningGraph "Learn recursion" (GenOutcome.parsed sixGraphC1) = fallbackGraph) :=
  ⟨by decide,
   (generateLearningGraph_amended "Learn recursion" (GenOutcome.parsed sixGraphC1)).2.1
     sixGraphC1 rfl,
   (generateLearningGraph_amended "Learn recursion" (GenOutcome.parsed sixGraphC1)).2.2
     sixGraphC1 rfl (by decide)⟩
